import Mathlib

/-!
Shallow embedding of `json2yaml.py` (`convert_json_to_yaml`): a converter
from a Three.JS JSON scene-graph document to a YAML scene description.

Numbers in the source are Python ints/floats; the embedding uses `ℚ`
(every literal appearing in the source is an exact decimal).  Python's
`math.acos` is stdlib code, not part of this repository: the converter is
parametric in a function `acos : ℚ → Option ℚ`, where `none` models the
`ValueError` that `math.acos` raises outside its domain `[-1, 1]`.
Python exceptions are modelled with `Except ConvErr`.
-/

namespace Json2Yaml

/-- Error conditions raised by `convert_json_to_yaml` (all are Python
`ValueError`/`KeyError` exceptions in the source). -/
inductive ConvErr where
  /-- Line 18: "JSON file is not a Three.JS JSON Scene file." -/
  | notScene
  /-- Line 108: "Unknown object type." -/
  | unknownObjectType
  /-- Line 79: "Plane has an invalid rotation." -/
  | invalidPlaneRotation
  /-- `KeyError` from a dict lookup (`geometries[...]`, `materials[...]`). -/
  | keyNotFound
  /-- `math.acos` called on an argument outside `[-1, 1]` (lines 66-67). -/
  | acosDomain
  /-- `np.reshape(4, 4)` on a list whose length is not 16 (line 65). -/
  | reshape
  /-- `range(0, n, 0)` in the color list comprehension (line 116). -/
  | rangeStepZero
deriving DecidableEq, Repr

/-- A geometry record: `uuid` plus the numeric fields the converter reads. -/
structure Geometry where
  uuid : String
  radius : ℚ := 0
  width : ℚ := 0
  height : ℚ := 0
  depth : ℚ := 0
deriving DecidableEq, Repr

/-- A material record: `uuid` plus the packed integer `color`. -/
structure Material where
  uuid : String
  color : ℕ
deriving DecidableEq, Repr

/-- A child node of the scene: display `name` (used as the type tag), flat
4×4 `matrix`, geometry/material reference ids, and the scalar fields read
by the camera and light branches. -/
structure Node where
  name : String
  matrix : List ℚ := []
  geometry : String := ""
  material : String := ""
  fov : ℚ := 0
  focus : ℚ := 0
  intensity : ℚ := 0
deriving DecidableEq, Repr

/-- The root `object` of the document: optional `type` tag and children. -/
structure SceneObject where
  type? : Option String
  children : List Node := []
deriving DecidableEq, Repr

/-- The input document: optional root `object` plus the flat geometry and
material lists. -/
structure SceneDoc where
  object? : Option SceneObject
  geometries : List Geometry := []
  materials : List Material := []
deriving DecidableEq, Repr

/-- The material dict attached to an output object (`matType`, `texType`,
`texture.albedo`, and `intensity` when present). -/
structure MatSpec where
  matType : String
  texType : String
  albedo : List ℚ
  intensity : Option ℚ := none
deriving DecidableEq, Repr

/-- An output world object: the `new_obj` dict.  Fields the source only
sets on some branches are `Option`s; `material.isSome` models the
`"material" in new_obj` membership test of line 110. -/
structure WorldObj where
  objType : String
  center : Option (List ℚ) := none
  radius : Option ℚ := none
  position : Option (List ℚ) := none
  width : Option ℚ := none
  height : Option ℚ := none
  depth : Option ℚ := none
  material : Option MatSpec := none
deriving DecidableEq, Repr

/-- The output `camera` block (lines 32-40). -/
structure Camera where
  lookFrom : List ℚ
  lookAt : List ℚ
  vup : List ℚ
  vfov : ℚ
  aspectRatio : ℚ
  aperture : ℚ
  focusDistance : ℚ
deriving DecidableEq, Repr

/-- Default camera values written before the node loop (lines 32-40). -/
def defaultCamera : Camera :=
  { lookFrom := [0, 0, 0]
    lookAt := [0, 0, 0]
    vup := [0, 1, 0]
    vfov := 90
    aspectRatio := 1
    aperture := 0.1
    focusDistance := 10 }

/-- The assembled output scene (the fixed `constants` block carries no
per-scene information and is omitted; `camera` and `world` are the parts
the conversion computes). -/
structure Output where
  camera : Camera
  world : List WorldObj
deriving DecidableEq, Repr

/-! ### Python dict lookup tables

The index builder (lines 43-50) fills a dict by assignment in a loop:
a later record with the same uuid overwrites an earlier one.  We model a
dict as an association list built by prepending, so that `dictGet?`
(first match) returns the last-written binding. -/

/-- Build the uuid-keyed lookup dict from a record list (last write wins). -/
def buildDict (key : α → String) (xs : List α) : List (String × α) :=
  xs.foldl (fun d x => (key x, x) :: d) []

/-- Dict lookup; `none` models a Python `KeyError`. -/
def dictGet? (d : List (String × α)) (k : String) : Option α :=
  (d.find? (fun p => p.1 = k)).map (fun p => p.2)

/-! ### Plane rotation classification (lines 65-79) -/

/-- Python float `%`: `a - b * floor (a / b)`. -/
def fmod (a b : ℚ) : ℚ := a - b * ⌊a / b⌋

/-- Degrees-per-radian constant as written in the source (57.2958). -/
def degPerRad : ℚ := 57.2958

/-- The plane-orientation if-chain of lines 68-79, as a function of the
already-computed `roll` and `pitch` angles. -/
def classifyPlane (roll pitch : ℚ) : Except ConvErr String :=
  if roll ≤ 0.01 ∧ pitch ≤ 0.01 then .ok "XYRectangle"
  else if roll - 90 ≤ 0.01 ∧ pitch ≤ 0.01 then .ok "XZRectangle"
  else if roll ≤ 0.01 ∧ pitch - 90 ≤ 0.01 then .ok "YZRectangle"
  else if roll - 90 ≤ 0.01 ∧ pitch - 90 ≤ 0.01 then .ok "YZRectangle"
  else .error .invalidPlaneRotation

/-- Which branch of the if-chain of lines 68-79 fires: `some 0` through
`some 3` for the four classification branches in source order, `none` for
the `else` that raises.  Same conditions, same order, as `classifyPlane`. -/
def planeBranch (roll pitch : ℚ) : Option (Fin 4) :=
  if roll ≤ 0.01 ∧ pitch ≤ 0.01 then some 0
  else if roll - 90 ≤ 0.01 ∧ pitch ≤ 0.01 then some 1
  else if roll ≤ 0.01 ∧ pitch - 90 ≤ 0.01 then some 2
  else if roll - 90 ≤ 0.01 ∧ pitch - 90 ≤ 0.01 then some 3
  else none

/-! ### Packed-color resolution (lines 113-121) -/

/-- Hex digits of `n`, least significant first; the first argument is
fuel (`n` itself suffices since `n / 16 < n`). -/
def hexDigitsAux : ℕ → ℕ → List ℕ
  | 0, _ => []
  | fuel + 1, n => if n = 0 then [] else n % 16 :: hexDigitsAux fuel (n / 16)

/-- The string `hex(color)[2:]` as a list of hex-digit values, most
significant first; `hex(0)[2:] = "0"`, hence the zero case. -/
def hexStr (n : ℕ) : List ℕ :=
  if n = 0 then [0] else (hexDigitsAux n n).reverse

/-- `int(s, 16)` on a chunk of hex digits. -/
def parseHex (ds : List ℕ) : ℕ := ds.foldl (fun a d => a * 16 + d) 0

/-- `range(0, n, s)` for `s > 0`: the multiples of `s` below `n`. -/
def rangeStep (n s : ℕ) : List ℕ :=
  (List.range ((n + s - 1) / s)).map (fun i => i * s)

/-- Lines 114-116: render the packed color as hex without leading zeros,
split into chunks of length `len // 3` and parse each as base 16, then
divide by 255 (line 120).  A chunk length of zero is the `range` step-zero
`ValueError` Python raises when the hex string is shorter than 3 digits. -/
def resolveColor (color : ℕ) : Except ConvErr (List ℚ) :=
  let ds := hexStr color
  let n := ds.length
  let s := n / 3
  if s = 0 then .error .rangeStepZero
  else
    let rgbcolor := (rangeStep n s).map (fun i => parseHex ((ds.drop i).take s))
    .ok (rgbcolor.map (fun c => (c : ℚ) / 255))

/-! ### Per-node conversion (lines 52-122) -/

/-- What one loop iteration contributes: a world object to append, or an
update to the camera block (the `PerspectiveCamera` branch, which
`continue`s without appending). -/
inductive NodeOut where
  | world (o : WorldObj)
  | cam (lookFrom lookAt : List ℚ) (vfov focusDistance : ℚ)
deriving DecidableEq, Repr

/-- `obj["matrix"][12:15]`, the translation components. -/
def translationOf (n : Node) : List ℚ := (n.matrix.drop 12).take 3

/-- The Plane branch (lines 58-79): position and geometry lookups come
first, then `np.reshape(4, 4)`, then `acos` of `m[1][1]` (flat index 5)
and `m[0][0]` (flat index 0), each scaled to degrees and reduced mod 180,
then the orientation if-chain. -/
def planeStep (acos : ℚ → Option ℚ) (geos : List (String × Geometry))
    (n : Node) : Except ConvErr WorldObj :=
  let pos := translationOf n
  match dictGet? geos n.geometry with
  | none => .error .keyNotFound
  | some g =>
    if n.matrix.length ≠ 16 then .error .reshape
    else
      match acos (n.matrix.getD 5 0) with
      | none => .error .acosDomain
      | some a =>
        let roll := fmod (a * degPerRad) 180
        match acos (n.matrix.getD 0 0) with
        | none => .error .acosDomain
        | some b =>
          let pitch := fmod (b * degPerRad) 180
          match classifyPlane roll pitch with
          | .error e => .error e
          | .ok t =>
            .ok { objType := t, position := some pos,
                  width := some g.width, height := some g.height }

/-- The type-dispatch if-chain of lines 52-108: builds `new_obj` (without
the material-resolution epilogue) or the camera update, or raises. -/
def stepNode (acos : ℚ → Option ℚ) (geos : List (String × Geometry))
    (n : Node) : Except ConvErr NodeOut :=
  if n.name = "Sphere" then
    match dictGet? geos n.geometry with
    | none => .error .keyNotFound
    | some g =>
      .ok (.world { objType := "Sphere", center := some (translationOf n),
                    radius := some g.radius })
  else if n.name = "Plane" then (planeStep acos geos n).map .world
  else if n.name = "Box" then
    match dictGet? geos n.geometry with
    | none => .error .keyNotFound
    | some g =>
      .ok (.world { objType := "Box", position := some (translationOf n),
                    width := some g.width, height := some g.height,
                    depth := some g.depth })
  else if n.name = "PerspectiveCamera" then
    .ok (.cam (translationOf n) ((n.matrix.drop 8).take 3) n.fov n.focus)
  else if n.name = "PointLight" then
    .ok (.world { objType := "Sphere", center := some (translationOf n),
                  radius := some 1,
                  material := some { matType := "DiffuseLight",
                                     texType := "SolidColor",
                                     albedo := [1, 1, 1],
                                     intensity := some (n.intensity * 10) } })
  else .error .unknownObjectType

/-- The material epilogue (lines 110-121): if `new_obj` already carries a
material (PointLight) it is appended as is; otherwise the node's material
id is looked up and its packed color resolved into a Lambertian spec. -/
def finishObj (mats : List (String × Material)) (n : Node) (o : WorldObj) :
    Except ConvErr WorldObj :=
  if o.material.isSome then .ok o
  else
    match dictGet? mats n.material with
    | none => .error .keyNotFound
    | some m =>
      match resolveColor m.color with
      | .error e => .error e
      | .ok albedo =>
        .ok { o with material := some { matType := "Lambertian",
                                        texType := "SolidColor",
                                        albedo := albedo } }

/-- One full loop iteration for a node: dispatch plus material epilogue. -/
def convertNode (acos : ℚ → Option ℚ) (geos : List (String × Geometry))
    (mats : List (String × Material)) (n : Node) : Except ConvErr NodeOut :=
  match stepNode acos geos n with
  | .error e => .error e
  | .ok (.cam lf la v f) => .ok (.cam lf la v f)
  | .ok (.world o) => (finishObj mats n o).map .world

/-- Overwrite the four camera fields a `PerspectiveCamera` node sets
(lines 89-94); the other fields keep their current values. -/
def applyCam (c : Camera) (lookFrom lookAt : List ℚ) (vfov fd : ℚ) : Camera :=
  { c with lookFrom := lookFrom, lookAt := lookAt, vfov := vfov,
           focusDistance := fd }

/-- The node loop (lines 52-122), threading the camera block and
accumulating the `world` list in input order. -/
def convertNodes (acos : ℚ → Option ℚ) (geos : List (String × Geometry))
    (mats : List (String × Material)) :
    List Node → Camera → Except ConvErr (Camera × List WorldObj)
  | [], cam => .ok (cam, [])
  | n :: rest, cam =>
    match convertNode acos geos mats n with
    | .error e => .error e
    | .ok (.cam lf la v f) =>
      convertNodes acos geos mats rest (applyCam cam lf la v f)
    | .ok (.world o) =>
      match convertNodes acos geos mats rest cam with
      | .error e => .error e
      | .ok (c, w) => .ok (c, o :: w)

/-- `convert_json_to_yaml` up to serialization: root validation (line 17),
index building (lines 43-50), then the node loop over
`object.children`. -/
def convert (acos : ℚ → Option ℚ) (doc : SceneDoc) : Except ConvErr Output :=
  match doc.object? with
  | none => .error .notScene
  | some root =>
    match root.type? with
    | none => .error .notScene
    | some t =>
      if t ≠ "Scene" then .error .notScene
      else
        let geos := buildDict Geometry.uuid doc.geometries
        let mats := buildDict Material.uuid doc.materials
        match convertNodes acos geos mats root.children defaultCamera with
        | .error e => .error e
        | .ok (cam, world) => .ok { camera := cam, world := world }

/-- The world object a node contributes, when it contributes one. -/
def worldOf (acos : ℚ → Option ℚ) (geos : List (String × Geometry))
    (mats : List (String × Material)) (n : Node) : Option WorldObj :=
  match convertNode acos geos mats n with
  | .ok (.world o) => some o
  | _ => none

/-- The camera update a `PerspectiveCamera` node performs (lines 89-94). -/
def camNodeApply (c : Camera) (n : Node) : Camera :=
  applyCam c (translationOf n) ((n.matrix.drop 8).take 3) n.fov n.focus

/-- The camera-node test of line 86, as a Boolean predicate on nodes. -/
def isCameraNode (n : Node) : Bool := n.name == "PerspectiveCamera"

/-! ### Concrete fixtures for the closed instances below -/

/-- A point light with translation (7, 8, 9) and intensity 2. -/
def plNode : Node :=
  { name := "PointLight", intensity := 2,
    matrix := [0, 0, 0, 0, 0, 0, 0, 0, 0, 0, 0, 0, 7, 8, 9, 1] }

/-- The world object `plNode` converts to. -/
def plObj : WorldObj :=
  { objType := "Sphere", center := some [7, 8, 9], radius := some 1,
    material := some { matType := "DiffuseLight", texType := "SolidColor",
                       albedo := [1, 1, 1], intensity := some (2 * 10) } }

/-- A camera node with translation (1, 2, 3) and forward column (4, 5, 6). -/
def camNode : Node :=
  { name := "PerspectiveCamera", fov := 60, focus := 7,
    matrix := [0, 0, 0, 0, 0, 0, 0, 0, 4, 5, 6, 0, 1, 2, 3, 1] }

/-- A second camera node, overwritten by `camNode` when it comes later. -/
def camNode2 : Node :=
  { name := "PerspectiveCamera", fov := 30, focus := 5,
    matrix := [0, 0, 0, 0, 0, 0, 0, 0, 0, 1, 0, 0, 9, 9, 9, 1] }

/-- A scene with one point light and one camera. -/
def demoDoc : SceneDoc :=
  { object? := some { type? := some "Scene", children := [plNode, camNode] } }

/-- What `demoDoc` converts to. -/
def demoOut : Output :=
  { camera := camNodeApply defaultCamera camNode, world := [plObj] }

/-- A scene with two cameras and nothing else. -/
def demo2Doc : SceneDoc :=
  { object? := some { type? := some "Scene",
                      children := [camNode2, camNode] } }

/-- What `demo2Doc` converts to: the later camera wins, the world is
empty. -/
def demo2Out : Output :=
  { camera := camNodeApply defaultCamera camNode, world := [] }

/-! ### Facts about the plane-orientation if-chain -/

/-- Whichever branch fires agrees between `planeBranch` and
`classifyPlane`: branch 3 (the fourth branch) yields `"YZRectangle"`. -/
theorem classifyPlane_of_planeBranch_three (roll pitch : ℚ)
    (h : planeBranch roll pitch = some 3) :
    classifyPlane roll pitch = .ok "YZRectangle" := by
  unfold planeBranch at h
  unfold classifyPlane
  split_ifs at h ⊢ with h1 h2 h3 h4
  · exact absurd (Option.some.inj h) (by decide)
  · exact absurd (Option.some.inj h) (by decide)
  · exact absurd (Option.some.inj h) (by decide)
  · rfl

/-- C1: the claim as stated is false: roll 45, pitch 0 matches none of the
three axis-aligned orientations within the 0.01-degree tolerance, yet the
one-sided comparison `roll - 90.0 <= 0.01` of line 71 accepts it as
`XZRectangle` instead of raising the invalid-plane-rotation error. -/
theorem c1_counterexample :
    classifyPlane 45 0 = .ok "XZRectangle"
    ∧ classifyPlane 45 0 ≠ .error .invalidPlaneRotation
    ∧ ¬((45 : ℚ) ≤ 0.01 ∨ |(45 : ℚ) - 90| ≤ 0.01) := by
  have h : classifyPlane 45 0 = .ok "XZRectangle" := by
    norm_num [classifyPlane]
  refine ⟨h, ?_, by rw [abs_sub_comm]; norm_num⟩
  rw [h]
  simp

/-- C1 (amended): because the `≈90` comparisons of lines 71, 74 and 76 are
one-sided (`x - 90 ≤ 0.01`, not `|x - 90| ≤ 0.01`), classification
succeeds for every `roll ≤ 90.01` and `pitch ≤ 90.01`: the conversion
raises the invalid-plane-rotation error exactly when `roll > 90.01` or
`pitch > 90.01`. -/
theorem c1_amended (roll pitch : ℚ) :
    classifyPlane roll pitch = .error .invalidPlaneRotation
    ↔ 90.01 < roll ∨ 90.01 < pitch := by
  unfold classifyPlane
  split_ifs with h1 h2 h3 h4
  · exact ⟨fun h => h.elim,
      fun h => by rcases h with h | h <;> [linarith [h1.1]; linarith [h1.2]]⟩
  · exact ⟨fun h => h.elim,
      fun h => by rcases h with h | h <;> [linarith [h2.1]; linarith [h2.2]]⟩
  · exact ⟨fun h => h.elim,
      fun h => by rcases h with h | h <;> [linarith [h3.1]; linarith [h3.2]]⟩
  · exact ⟨fun h => h.elim,
      fun h => by rcases h with h | h <;> [linarith [h4.1]; linarith [h4.2]]⟩
  · refine ⟨fun _ => ?_, fun _ => rfl⟩
    by_contra hc
    push_neg at hc
    exact h4 ⟨by linarith [hc.1], by linarith [hc.2]⟩

/-- C3: the claim is false: the fourth branch (line 76) is reachable.  At
roll = 90, pitch = 90 — angles an actual Plane reaches, e.g. with
`m[0][0] = m[1][1] = 0` — the first three branches all fail (branch 2
needs pitch ≤ 0.01, branch 3 needs roll ≤ 0.01) and the fourth fires,
assigning `YZRectangle`. -/
theorem c3_counterexample :
    planeBranch 90 90 = some 3 ∧ classifyPlane 90 90 = .ok "YZRectangle" := by
  constructor
  · norm_num [planeBranch]
  · norm_num [classifyPlane]

/-- C3 (amended): the fourth plane-orientation branch is not unreachable:
it fires exactly when both angles exceed the 0.01 tolerance and both are
at most 90.01 — the earlier branches only consume the cases where `roll`
or `pitch` is below the tolerance. -/
theorem c3_amended (roll pitch : ℚ) :
    planeBranch roll pitch = some 3
    ↔ 0.01 < roll ∧ roll ≤ 90.01 ∧ 0.01 < pitch ∧ pitch ≤ 90.01 := by
  unfold planeBranch
  split_ifs with h1 h2 h3 h4
  · refine ⟨fun h => absurd (Option.some.inj h) (by decide), ?_⟩
    rintro ⟨a, -, -, -⟩; linarith [h1.1]
  · refine ⟨fun h => absurd (Option.some.inj h) (by decide), ?_⟩
    rintro ⟨-, -, c, -⟩; linarith [h2.2]
  · refine ⟨fun h => absurd (Option.some.inj h) (by decide), ?_⟩
    rintro ⟨a, -, -, -⟩; linarith [h3.1]
  · refine ⟨fun _ => ⟨?_, by linarith [h4.1], ?_, by linarith [h4.2]⟩,
      fun _ => rfl⟩
    · by_contra hr
      push_neg at hr
      exact h3 ⟨by linarith, by linarith [h4.2]⟩
    · by_contra hp
      push_neg at hp
      exact h2 ⟨h4.1, by linarith⟩
  · refine ⟨fun h => h.elim, ?_⟩
    rintro ⟨-, b, -, d⟩
    exact h4 ⟨by linarith, by linarith⟩

/-! ### Color resolution at the two colors of the spec's test property -/

/-- Pure white `0xFFFFFF` renders as six hex digits `ffffff`. -/
theorem hexStr_white : hexStr 16777215 = [15, 15, 15, 15, 15, 15] := by decide

/-- `0xFFFFFF` resolves to the all-ones albedo. -/
theorem resolveColor_white : resolveColor 16777215 = .ok [1, 1, 1] := by
  have h2 : (rangeStep 6 2).map
      (fun i => parseHex (([15, 15, 15, 15, 15, 15].drop i).take 2))
      = [255, 255, 255] := by decide
  simp only [resolveColor, hexStr_white, List.length_cons, List.length_nil]
  norm_num [h2]

/-- `0x000000` renders as the single hex digit `0`, whose length-1 string
makes the chunk width `1 // 3 = 0` and the `range` step zero: an error,
not the black albedo. -/
theorem resolveColor_black : resolveColor 0 = .error .rangeStepZero := by
  have h : hexStr 0 = [0] := by decide
  simp only [resolveColor, h, List.length_cons, List.length_nil]
  norm_num

/-! ### Structural facts about the node dispatch -/

/-- A `PerspectiveCamera` node always dispatches to the camera update. -/
theorem stepNode_camera {acos : ℚ → Option ℚ} {geos : List (String × Geometry)}
    {n : Node} (h : n.name = "PerspectiveCamera") :
    stepNode acos geos n =
      .ok (.cam (translationOf n) ((n.matrix.drop 8).take 3) n.fov n.focus) := by
  simp [stepNode, h]

/-- Only a `PerspectiveCamera` node can produce a camera update. -/
theorem stepNode_cam_name {acos : ℚ → Option ℚ} {geos : List (String × Geometry)}
    {n : Node} {lf la : List ℚ} {v f : ℚ}
    (h : stepNode acos geos n = .ok (.cam lf la v f)) :
    n.name = "PerspectiveCamera" := by
  by_contra hn
  unfold stepNode at h
  split_ifs at h with h1 h2 h3 h4
  · revert h; cases dictGet? geos n.geometry <;> simp
  · revert h; cases planeStep acos geos n <;> simp [Except.map]
  · revert h; cases dictGet? geos n.geometry <;> simp
  · simp at h

/-- A node that contributes a world object is not a camera node. -/
theorem stepNode_world_not_camera {acos : ℚ → Option ℚ}
    {geos : List (String × Geometry)} {n : Node} {o : WorldObj}
    (h : stepNode acos geos n = .ok (.world o)) :
    ¬ n.name = "PerspectiveCamera" := by
  intro hn
  rw [stepNode_camera hn] at h
  simp at h

/-- A `PerspectiveCamera` node converts to exactly its camera update. -/
theorem convertNode_camera {acos : ℚ → Option ℚ}
    {geos : List (String × Geometry)} {mats : List (String × Material)}
    {n : Node} (h : n.name = "PerspectiveCamera") :
    convertNode acos geos mats n =
      .ok (.cam (translationOf n) ((n.matrix.drop 8).take 3) n.fov n.focus) := by
  rw [convertNode, stepNode_camera h]

/-- Only a `PerspectiveCamera` node can convert to a camera update. -/
theorem convertNode_cam_inv {acos : ℚ → Option ℚ}
    {geos : List (String × Geometry)} {mats : List (String × Material)}
    {n : Node} {lf la : List ℚ} {v f : ℚ}
    (h : convertNode acos geos mats n = .ok (.cam lf la v f)) :
    n.name = "PerspectiveCamera" := by
  unfold convertNode at h
  cases hs : stepNode acos geos n with
  | error e => rw [hs] at h; exact Except.noConfusion h
  | ok r =>
    cases r with
    | cam lf' la' v' f' => exact stepNode_cam_name hs
    | world o =>
      simp only [hs] at h
      cases hf : finishObj mats n o with
      | error e => simp only [hf, Except.map] at h; exact Except.noConfusion h
      | ok o' =>
        simp only [hf, Except.map] at h
        exact NodeOut.noConfusion (Except.ok.inj h)

/-- A successful node conversion to a world object factors through the
dispatch and the material epilogue. -/
theorem convertNode_world_inv {acos : ℚ → Option ℚ}
    {geos : List (String × Geometry)} {mats : List (String × Material)}
    {n : Node} {o : WorldObj}
    (h : convertNode acos geos mats n = .ok (.world o)) :
    ∃ o₀, stepNode acos geos n = .ok (.world o₀) ∧ finishObj mats n o₀ = .ok o := by
  unfold convertNode at h
  cases hs : stepNode acos geos n with
  | error e => rw [hs] at h; exact Except.noConfusion h
  | ok r =>
    cases r with
    | cam lf la v f => simp only [hs] at h; simp at h
    | world o₀ =>
      simp only [hs] at h
      refine ⟨o₀, rfl, ?_⟩
      cases hf : finishObj mats n o₀ with
      | error e => simp only [hf, Except.map] at h; exact Except.noConfusion h
      | ok o' =>
        simp only [hf, Except.map, Except.ok.injEq, NodeOut.world.injEq] at h
        rw [h]

/-- The material epilogue never changes the geometric fields of the
object it finishes. -/
theorem finishObj_preserves {mats : List (String × Material)} {n : Node}
    {o o' : WorldObj} (h : finishObj mats n o = .ok o') :
    o'.objType = o.objType ∧ o'.center = o.center ∧ o'.radius = o.radius := by
  unfold finishObj at h
  split_ifs at h with hm
  · cases h
    exact ⟨rfl, rfl, rfl⟩
  · cases hd : dictGet? mats n.material with
    | none => simp only [hd] at h; exact Except.noConfusion h
    | some m =>
      simp only [hd] at h
      cases hc : resolveColor m.color with
      | error e => simp only [hc] at h; exact Except.noConfusion h
      | ok albedo =>
        simp only [hc] at h
        cases h
        exact ⟨rfl, rfl, rfl⟩

/-- The slice `l[12:15]` of a 16-element list, element by element. -/
theorem take_three_drop_twelve (l : List ℚ) (h : l.length = 16) :
    (l.drop 12).take 3 = [l.getD 12 0, l.getD 13 0, l.getD 14 0] := by
  have h12 : (12 : ℕ) < l.length := by omega
  have h13 : (13 : ℕ) < l.length := by omega
  have h14 : (14 : ℕ) < l.length := by omega
  rw [List.drop_eq_getElem_cons h12, List.drop_eq_getElem_cons h13,
    List.drop_eq_getElem_cons h14, List.getD_eq_getElem l 0 h12,
    List.getD_eq_getElem l 0 h13, List.getD_eq_getElem l 0 h14]
  rfl

/-- C2: packed color `0xFFFFFF` does resolve to albedo `[1, 1, 1]`, but
`0x000000` does not resolve to `[0, 0, 0]`: `hex(0)[2:] = "0"` has length
1, the chunk width `1 // 3` is 0, and `range(0, 1, 0)` raises, so a shape
node whose material color is 0 makes the whole conversion fail.  The last
two conjuncts run a Sphere node through `convertNode` at both colors. -/
theorem c2_color_resolution :
    resolveColor 0xFFFFFF = .ok [1, 1, 1]
    ∧ resolveColor 0x000000 = .error .rangeStepZero
    ∧ convertNode (fun _ => none) [("g", { uuid := "g", radius := 5 })]
        [("m", { uuid := "m", color := 0 })]
        { name := "Sphere", geometry := "g", material := "m",
          matrix := [1, 0, 0, 0, 0, 1, 0, 0, 0, 0, 1, 0, 2, 3, 4, 1] }
      = .error .rangeStepZero
    ∧ convertNode (fun _ => none) [("g", { uuid := "g", radius := 5 })]
        [("m", { uuid := "m", color := 16777215 })]
        { name := "Sphere", geometry := "g", material := "m",
          matrix := [1, 0, 0, 0, 0, 1, 0, 0, 0, 0, 1, 0, 2, 3, 4, 1] }
      = .ok (.world
          { objType := "Sphere", center := some [2, 3, 4], radius := some 5,
            material := some
              { matType := "Lambertian", texType := "SolidColor",
                albedo := [1, 1, 1] } }) := by
  refine ⟨resolveColor_white, resolveColor_black, ?_, ?_⟩
  · simp [convertNode, stepNode, finishObj, dictGet?, translationOf,
      resolveColor_black, Except.map]
  · simp [convertNode, stepNode, finishObj, dictGet?, translationOf,
      resolveColor_white, Except.map]

/-- C5: a Sphere node's world object takes its center from the three
translation entries at flat offsets 12, 13, 14 of the node's 16-element
matrix and its radius from the referenced geometry record's radius,
unchanged (the embedding's rationals carry the values exactly; the only
transformation in the source is the `float` cast). -/
theorem c5_sphere_translation (acos : ℚ → Option ℚ)
    (geos : List (String × Geometry)) (mats : List (String × Material))
    (n : Node) (g : Geometry) (o : WorldObj)
    (hname : n.name = "Sphere")
    (hlen : n.matrix.length = 16)
    (hg : dictGet? geos n.geometry = some g)
    (h : convertNode acos geos mats n = .ok (.world o)) :
    o.center = some [n.matrix.getD 12 0, n.matrix.getD 13 0, n.matrix.getD 14 0]
    ∧ o.radius = some g.radius := by
  obtain ⟨o₀, hs, hf⟩ := convertNode_world_inv h
  have hstep : stepNode acos geos n =
      .ok (.world { objType := "Sphere", center := some (translationOf n),
                    radius := some g.radius }) := by
    simp [stepNode, hname, hg]
  rw [hstep] at hs
  simp only [Except.ok.injEq, NodeOut.world.injEq] at hs
  obtain ⟨-, hc, hr⟩ := finishObj_preserves hf
  rw [← hs] at hc hr
  rw [hc, hr]
  exact ⟨by rw [translationOf, take_three_drop_twelve n.matrix hlen], rfl⟩

/-- C5 witness: a concrete Sphere node whose matrix carries translation
(2, 3, 4) and whose geometry has radius 5. -/
theorem c5_witness :
    ({ objType := "Sphere", center := some [2, 3, 4], radius := some 5,
       material := some { matType := "Lambertian", texType := "SolidColor",
                          albedo := [1, 1, 1] } } : WorldObj).center
        = some [(2 : ℚ), 3, 4]
    ∧ ({ objType := "Sphere", center := some [2, 3, 4], radius := some 5,
         material := some { matType := "Lambertian", texType := "SolidColor",
                            albedo := [1, 1, 1] } } : WorldObj).radius
        = some (5 : ℚ) :=
  c5_sphere_translation (fun _ => none) [("g", { uuid := "g", radius := 5 })]
    [("m", { uuid := "m", color := 16777215 })]
    { name := "Sphere", geometry := "g", material := "m",
      matrix := [1, 0, 0, 0, 0, 1, 0, 0, 0, 0, 1, 0, 2, 3, 4, 1] }
    { uuid := "g", radius := 5 } _ rfl rfl rfl
    (by simp [convertNode, stepNode, finishObj, dictGet?, translationOf,
      resolveColor_white, Except.map])

/-- C6: a PointLight node always converts to a radius-1 Sphere world
object at the node's translation, carrying a synthesized DiffuseLight
material with solid white albedo and intensity 10 times the node's
intensity.  The material index `mats` is universally quantified — the
node's material reference is never consulted, so conversion succeeds even
with an empty material index. -/
theorem c6_pointlight_fixed (acos : ℚ → Option ℚ)
    (geos : List (String × Geometry)) (mats : List (String × Material))
    (n : Node) (hname : n.name = "PointLight") :
    convertNode acos geos mats n = .ok (.world
      { objType := "Sphere", center := some (translationOf n),
        radius := some 1,
        material := some { matType := "DiffuseLight", texType := "SolidColor",
                           albedo := [1, 1, 1],
                           intensity := some (n.intensity * 10) } }) := by
  simp [convertNode, stepNode, hname, finishObj, Except.map]

/-- C6 witness: a concrete PointLight with translation (7, 8, 9) and
intensity 2, converted against empty geometry and material indexes. -/
theorem c6_witness :
    convertNode (fun _ => none) [] []
        { name := "PointLight", intensity := 2,
          matrix := [0, 0, 0, 0, 0, 0, 0, 0, 0, 0, 0, 0, 7, 8, 9, 1] }
      = .ok (.world
        { objType := "Sphere", center := some [7, 8, 9], radius := some 1,
          material := some { matType := "DiffuseLight", texType := "SolidColor",
                             albedo := [1, 1, 1],
                             intensity := some ((2 : ℚ) * 10) } }) :=
  c6_pointlight_fixed (fun _ => none) [] []
    { name := "PointLight", intensity := 2,
      matrix := [0, 0, 0, 0, 0, 0, 0, 0, 0, 0, 0, 0, 7, 8, 9, 1] } rfl

/-! ### The node loop -/

/-- Repeating a camera update overwrites it completely: only the last
update survives. -/
theorem camNodeApply_camNodeApply (c : Camera) (m n : Node) :
    camNodeApply (camNodeApply c m) n = camNodeApply c n := rfl

/-- Folding camera updates over a list applies exactly the last one. -/
theorem foldl_camNodeApply_getLast (l : List Node) :
    ∀ (c : Camera) (n : Node), l.getLast? = some n →
      l.foldl camNodeApply c = camNodeApply c n := by
  induction l with
  | nil => intro c n h; simp at h
  | cons x t ih =>
    intro c n h
    cases t with
    | nil =>
      simp only [List.getLast?_singleton, Option.some.injEq] at h
      subst h
      rfl
    | cons y t' =>
      rw [List.foldl_cons, ih (camNodeApply c x) n (by simpa using h),
        camNodeApply_camNodeApply]

/-- What the node loop guarantees on success: the world list is the
filterMap of the per-node contributions in input order, camera nodes
account for exactly the entries missing from it, and the final camera
block is the fold of the camera nodes' updates over the incoming one. -/
theorem convertNodes_ok {acos : ℚ → Option ℚ} {geos : List (String × Geometry)}
    {mats : List (String × Material)} :
    ∀ {ns : List Node} {cam c : Camera} {w : List WorldObj},
      convertNodes acos geos mats ns cam = .ok (c, w) →
      w = ns.filterMap (worldOf acos geos mats)
      ∧ w.length + (ns.filter isCameraNode).length = ns.length
      ∧ c = (ns.filter isCameraNode).foldl camNodeApply cam := by
  intro ns
  induction ns with
  | nil =>
    intro cam c w h
    simp only [convertNodes, Except.ok.injEq, Prod.mk.injEq] at h
    simp [← h.1, ← h.2]
  | cons n rest ih =>
    intro cam c w h
    cases hc : convertNode acos geos mats n with
    | error e =>
      simp only [convertNodes, hc] at h
      exact Except.noConfusion h
    | ok r =>
      cases r with
      | cam lf la v f =>
        simp only [convertNodes, hc] at h
        have hname : n.name = "PerspectiveCamera" := convertNode_cam_inv hc
        have hvals := (@convertNode_camera acos geos mats n hname).symm.trans hc
        simp only [Except.ok.injEq, NodeOut.cam.injEq] at hvals
        obtain ⟨h1, h2, h3, h4⟩ := hvals
        obtain ⟨hw, hl, hcam⟩ := ih h
        have hwn : worldOf acos geos mats n = none := by
          simp [worldOf, hc]
        have hcn : isCameraNode n = true := by
          simp [isCameraNode, hname]
        refine ⟨?_, ?_, ?_⟩
        · simp [List.filterMap_cons, hwn, hw]
        · simp only [List.filter_cons, hcn, if_true, List.length_cons]
          omega
        · simp only [List.filter_cons, hcn, if_true, List.foldl_cons]
          rw [hcam, camNodeApply, h1, h2, h3, h4]
      | world o =>
        simp only [convertNodes, hc] at h
        cases hr : convertNodes acos geos mats rest cam with
        | error e =>
          simp only [hr] at h
          exact Except.noConfusion h
        | ok p =>
          obtain ⟨c', w'⟩ := p
          simp only [hr, Except.ok.injEq, Prod.mk.injEq] at h
          obtain ⟨h5, h6⟩ := h
          subst h5
          subst h6
          obtain ⟨o₀, hs, -⟩ := convertNode_world_inv hc
          have hname := stepNode_world_not_camera hs
          have hwn : worldOf acos geos mats n = some o := by
            simp [worldOf, hc]
          have hcn : isCameraNode n = false := by
            simp [isCameraNode, hname]
          obtain ⟨hw, hl, hcam⟩ := ih hr
          refine ⟨?_, ?_, ?_⟩
          · simp [List.filterMap_cons, hwn, hw]
          · simp only [List.filter_cons, hcn, List.length_cons,
              Bool.false_eq_true, if_false]
            omega
          · simpa only [List.filter_cons, hcn, Bool.false_eq_true, if_false]
              using hcam

/-- Successful conversion unpacked: the root is present and tagged Scene,
and the node loop succeeded from the default camera, yielding the
output's camera and world. -/
theorem convert_ok_inv {acos : ℚ → Option ℚ} {doc : SceneDoc} {out : Output}
    (h : convert acos doc = .ok out) :
    ∃ root, doc.object? = some root ∧ root.type? = some "Scene" ∧
      convertNodes acos (buildDict Geometry.uuid doc.geometries)
        (buildDict Material.uuid doc.materials) root.children defaultCamera
        = .ok (out.camera, out.world) := by
  unfold convert at h
  cases ho : doc.object? with
  | none => rw [ho] at h; exact Except.noConfusion h
  | some root =>
    simp only [ho] at h
    refine ⟨root, rfl, ?_⟩
    cases ht : root.type? with
    | none => rw [ht] at h; exact Except.noConfusion h
    | some t =>
      simp only [ht] at h
      by_cases hts : t = "Scene"
      · subst hts
        rw [if_neg (fun hne => hne rfl)] at h
        refine ⟨rfl, ?_⟩
        cases hn : convertNodes acos (buildDict Geometry.uuid doc.geometries)
            (buildDict Material.uuid doc.materials) root.children
            defaultCamera with
        | error e =>
          simp only [hn] at h
          exact Except.noConfusion h
        | ok p =>
          obtain ⟨cam, world⟩ := p
          simp only [hn, Except.ok.injEq] at h
          rw [← h]
      · rw [if_pos (by simpa using hts)] at h
        exact Except.noConfusion h

/-- C4: when conversion succeeds, the output world has exactly one entry
per non-camera child node, and the entries are the per-node contributions
in input order (`filterMap` keeps the relative order of the children). -/
theorem c4_world_length_order (acos : ℚ → Option ℚ) (doc : SceneDoc)
    (out : Output) (root : SceneObject)
    (hr : doc.object? = some root)
    (h : convert acos doc = .ok out) :
    out.world.length + (root.children.filter isCameraNode).length
        = root.children.length
    ∧ out.world = root.children.filterMap
        (worldOf acos (buildDict Geometry.uuid doc.geometries)
          (buildDict Material.uuid doc.materials)) := by
  obtain ⟨root', hr', -, hn⟩ := convert_ok_inv h
  rw [hr] at hr'
  obtain rfl := Option.some.inj hr'
  obtain ⟨hw, hl, -⟩ := convertNodes_ok hn
  exact ⟨hl, hw⟩

/-- C4 witness: a scene with one point light and one camera converts to a
world of length 1 = 2 children − 1 camera, in input order. -/
theorem c4_witness :
    demoOut.world.length + ([plNode, camNode].filter isCameraNode).length
        = ([plNode, camNode] : List Node).length
    ∧ demoOut.world = [plNode, camNode].filterMap
        (worldOf (fun _ => none) (buildDict Geometry.uuid [])
          (buildDict Material.uuid [])) :=
  c4_world_length_order (fun _ => none) demoDoc demoOut
    { type? := some "Scene", children := [plNode, camNode] } rfl rfl

/-- C7: the output always carries exactly one camera block (the `camera`
field); on success it equals the default overwritten by the camera nodes'
updates in order, so the last camera node in input order wins, the
defaults survive when there is no camera node, and camera nodes never
contribute a world object. -/
theorem c7_camera_last_wins (acos : ℚ → Option ℚ) (doc : SceneDoc)
    (out : Output) (root : SceneObject)
    (hr : doc.object? = some root)
    (h : convert acos doc = .ok out) :
    (root.children.filter isCameraNode = [] → out.camera = defaultCamera)
    ∧ (∀ n, (root.children.filter isCameraNode).getLast? = some n →
        out.camera = camNodeApply defaultCamera n)
    ∧ (∀ n, isCameraNode n →
        worldOf acos (buildDict Geometry.uuid doc.geometries)
          (buildDict Material.uuid doc.materials) n = none) := by
  obtain ⟨root', hr', -, hn⟩ := convert_ok_inv h
  rw [hr] at hr'
  obtain rfl := Option.some.inj hr'
  obtain ⟨-, -, hcam⟩ := convertNodes_ok hn
  refine ⟨?_, ?_, ?_⟩
  · intro hemp
    rw [hcam, hemp]
    rfl
  · intro n hlast
    rw [hcam, foldl_camNodeApply_getLast _ _ _ hlast]
  · intro n hc
    have hname : n.name = "PerspectiveCamera" := by
      simpa [isCameraNode] using hc
    simp [worldOf, convertNode_camera hname]

/-- C7 witness: with two cameras in input order the output camera block
equals the update of the second (last) one. -/
theorem c7_witness : demo2Out.camera = camNodeApply defaultCamera camNode :=
  (c7_camera_last_wins (fun _ => none) demo2Doc demo2Out
    { type? := some "Scene", children := [camNode2, camNode] } rfl rfl).2.1
    camNode rfl

/-- C8: a document with no root `object`, a root without a `type`, or a
root type other than `Scene` always fails with the input-validity error:
the result is the error alone, so nothing is translated and no output
exists. -/
theorem c8_root_validation (acos : ℚ → Option ℚ) (doc : SceneDoc)
    (h : ∀ root, doc.object? = some root → root.type? ≠ some "Scene") :
    convert acos doc = .error .notScene := by
  rcases ho : doc.object? with - | root
  · simp [convert, ho]
  · rcases ht : root.type? with - | t
    · simp [convert, ho, ht]
    · have hne : t ≠ "Scene" := fun he => h root ho (ht.trans (by rw [he]))
      simp [convert, ho, ht, hne]

/-- C8 witness: a root tagged `Mesh` instead of `Scene` is rejected. -/
theorem c8_witness :
    convert (fun _ => none)
        { object? := some { type? := some "Mesh", children := [plNode] } }
      = .error .notScene :=
  c8_root_validation (fun _ => none)
    { object? := some { type? := some "Mesh", children := [plNode] } }
    (fun root hr => by
      rw [← Option.some.inj hr]
      simp)

/-- A successful plane dispatch has not yet attached a material. -/
theorem planeStep_material_none {acos : ℚ → Option ℚ}
    {geos : List (String × Geometry)} {n : Node} {p : WorldObj}
    (h : planeStep acos geos n = .ok p) : p.material = none := by
  unfold planeStep at h
  cases hg : dictGet? geos n.geometry with
  | none =>
    simp only [hg] at h
    exact Except.noConfusion h
  | some g =>
    simp only [hg] at h
    split_ifs at h with hl
    cases ha : acos (n.matrix.getD 5 0) with
    | none =>
      simp only [ha] at h
      exact Except.noConfusion h
    | some a =>
      simp only [ha] at h
      cases hb : acos (n.matrix.getD 0 0) with
      | none =>
        simp only [hb] at h
        exact Except.noConfusion h
      | some b =>
        simp only [hb] at h
        cases hcl : classifyPlane (fmod (a * degPerRad) 180)
            (fmod (b * degPerRad) 180) with
        | error e =>
          simp only [hcl] at h
          exact Except.noConfusion h
        | ok t =>
          simp only [hcl, Except.ok.injEq] at h
          rw [← h]

/-- No shape dispatch (Sphere, Plane or Box) attaches a material: the
epilogue of lines 110-121 is what resolves it. -/
theorem stepNode_shape_material_none {acos : ℚ → Option ℚ}
    {geos : List (String × Geometry)} {n : Node} {o : WorldObj}
    (hname : n.name = "Sphere" ∨ n.name = "Plane" ∨ n.name = "Box")
    (hs : stepNode acos geos n = .ok (.world o)) : o.material = none := by
  rcases hname with h | h | h
  · unfold stepNode at hs
    rw [h, if_pos rfl] at hs
    cases hg : dictGet? geos n.geometry with
    | none =>
      simp only [hg] at hs
      exact Except.noConfusion hs
    | some g =>
      simp only [hg, Except.ok.injEq, NodeOut.world.injEq] at hs
      rw [← hs]
  · unfold stepNode at hs
    rw [h, if_neg (by decide), if_pos rfl] at hs
    cases hp : planeStep acos geos n with
    | error e =>
      simp only [hp, Except.map] at hs
      exact Except.noConfusion hs
    | ok p =>
      simp only [hp, Except.map, Except.ok.injEq, NodeOut.world.injEq] at hs
      rw [← hs]
      exact planeStep_material_none hp
  · unfold stepNode at hs
    rw [h, if_neg (by decide), if_neg (by decide), if_pos rfl] at hs
    cases hg : dictGet? geos n.geometry with
    | none =>
      simp only [hg] at hs
      exact Except.noConfusion hs
    | some g =>
      simp only [hg, Except.ok.injEq, NodeOut.world.injEq] at hs
      rw [← hs]

/-- C9: a shape node whose geometry id misses the geometry index fails
with the key-not-found condition, and one whose shape dispatch succeeded
but whose material id misses the material index fails the same way: no
default geometry or material is substituted. -/
theorem c9_unresolved_reference (acos : ℚ → Option ℚ)
    (geos : List (String × Geometry)) (mats : List (String × Material))
    (n : Node)
    (hname : n.name = "Sphere" ∨ n.name = "Plane" ∨ n.name = "Box") :
    (dictGet? geos n.geometry = none →
        convertNode acos geos mats n = .error .keyNotFound)
    ∧ (∀ o, stepNode acos geos n = .ok (.world o) →
        dictGet? mats n.material = none →
        convertNode acos geos mats n = .error .keyNotFound) := by
  constructor
  · intro hg
    rcases hname with h | h | h
    · simp [convertNode, stepNode, h, hg, Except.map]
    · simp [convertNode, stepNode, planeStep, h, hg, Except.map]
    · simp [convertNode, stepNode, h, hg, Except.map]
  · intro o hs hm
    have hmat : o.material = none := stepNode_shape_material_none hname hs
    simp [convertNode, hs, finishObj, hmat, hm, Except.map]

/-- C9 witness: a Sphere node against empty indexes fails with the
key-not-found condition. -/
theorem c9_witness :
    convertNode (fun _ => none) [] [] { name := "Sphere", geometry := "g" }
      = .error .keyNotFound :=
  (c9_unresolved_reference (fun _ => none) [] []
    { name := "Sphere", geometry := "g" } (Or.inl rfl)).1 rfl

/-- C10: a Plane node whose matrix entry `m[1][1]` (flat offset 5) is 2 —
outside `acos`'s domain `[-1, 1]` — fails with the `acos` domain error,
which is not the invalid-plane-rotation error: the classification is only
total on matrices whose diagonal entries stay within `[-1, 1]`. -/
theorem c10_acos_domain (acos : ℚ → Option ℚ)
    (geos : List (String × Geometry)) (mats : List (String × Material))
    (n : Node) (g : Geometry)
    (hname : n.name = "Plane")
    (hg : dictGet? geos n.geometry = some g)
    (hlen : n.matrix.length = 16)
    (hm : n.matrix.getD 5 0 = 2)
    (hdom : ∀ x : ℚ, x < -1 ∨ 1 < x → acos x = none) :
    convertNode acos geos mats n = .error .acosDomain
    ∧ ConvErr.acosDomain ≠ ConvErr.invalidPlaneRotation := by
  have ha : acos (n.matrix.getD 5 0) = none := by
    rw [hm]
    exact hdom 2 (Or.inr (by norm_num))
  have h16 : ¬ n.matrix.length ≠ 16 := fun hne => hne hlen
  have ha' : acos (n.matrix[5]?.getD 0) = none := by simpa using ha
  refine ⟨?_, by simp⟩
  simp [convertNode, stepNode, planeStep, hname, hg, h16, ha', Except.map]

/-- C10 witness: a concrete scaled Plane (diagonal entry 2) with a
resolvable geometry, against a concrete domain-respecting `acos`. -/
theorem c10_witness :
    convertNode (fun x => if x < -1 ∨ 1 < x then none else some 0)
        [("g", { uuid := "g", width := 1, height := 1 })] []
        { name := "Plane", geometry := "g",
          matrix := [1, 0, 0, 0, 0, 2, 0, 0, 0, 0, 1, 0, 0, 0, 0, 1] }
      = .error .acosDomain
    ∧ ConvErr.acosDomain ≠ ConvErr.invalidPlaneRotation :=
  c10_acos_domain (fun x => if x < -1 ∨ 1 < x then none else some 0)
    [("g", { uuid := "g", width := 1, height := 1 })] []
    { name := "Plane", geometry := "g",
      matrix := [1, 0, 0, 0, 0, 2, 0, 0, 0, 0, 1, 0, 0, 0, 0, 1] }
    { uuid := "g", width := 1, height := 1 }
    rfl rfl rfl rfl (fun _ hx => if_pos hx)

end Json2Yaml
